import Mathlib

/-
Verification development for the lecture-video transcription pipeline
(src/main.py).  The Python program is shallowly embedded: every external
capability (Google Drive listing and download, the Whisper models, the
MongoDB store, the local filesystem) is passed in as an explicit oracle,
and each Python function becomes a total Lean function on those oracles
that returns the observable trace of the corresponding run.
-/

namespace LectureTranscriber

/-- Whether the first list is an initial segment of the second. -/
def matchesAt : List Char → List Char → Bool
  | [], _ => true
  | _ :: _, [] => false
  | a :: as, b :: bs => a == b && matchesAt as bs

/-- Whether `needle` occurs as a contiguous sublist of the second
argument. -/
def hasSubList (needle : List Char) : List Char → Bool
  | [] => needle.isEmpty
  | b :: bs => matchesAt needle (b :: bs) || hasSubList needle bs

/-- Boolean substring test, modelling the Python expression
`needle in hay` used on exception messages (main.py line 73). -/
def containsSub (needle hay : String) : Bool :=
  hasSubList needle.data hay.data

/-- Drop leading whitespace characters. -/
def dropLeadingWs : List Char → List Char
  | [] => []
  | c :: cs => if c.isWhitespace then dropLeadingWs cs else c :: cs

/-- Python `str.strip()`: remove leading and trailing whitespace, as
applied to each segment text (main.py lines 66 and 83). -/
def pyStrip (s : String) : String :=
  ⟨(dropLeadingWs (dropLeadingWs s.data.reverse).reverse)⟩

/-- Classification of a primary-model error message as a tensor-shape /
layer incompatibility, from main.py line 73:
`if "reshape tensor" in str(e) or "Linear" in str(e)`. -/
def shapeIncompat (msg : String) : Bool :=
  containsSub "reshape tensor" msg || containsSub "Linear" msg

/-- Primary-model segment formatting, main.py lines 63-66: the loop
`formatted_text += f"{segment[...].strip()}\n"` over the segments. -/
def formatPrimary (segs : List String) : String :=
  segs.foldl (fun acc s => acc ++ (pyStrip s ++ "\n")) ""

/-- Fallback-model segment formatting, main.py lines 81-83: the loop
`formatted_text += f"{segment[...].strip()}\n\n"` over the segments. -/
def formatFallback (segs : List String) : String :=
  segs.foldl (fun acc s => acc ++ (pyStrip s ++ "\n\n")) ""

/-- Modelled from the wording of the claims: stripped segment texts
joined with a blank-line SEPARATOR (separator strictly between
elements, nothing trailing).  Kept for comparison with the source
formatting `formatFallback`. -/
def specBlankLineJoin (segs : List String) : String :=
  String.intercalate "\n\n" (segs.map pyStrip)

/-- Outcome of the ffmpeg audio-extraction step (main.py lines 41-53),
as seen by the rest of `transcribe_with_ffmpeg_preprocessing`:
either the subprocess call (or anything before it) raised, with a flag
recording whether the temp audio file exists on disk at that point, or
the subprocess completed and the file system now reports whether the
audio file was created and with which size (main.py line 56). -/
inductive ExtractOutcome where
  | raised (fileOnDisk : Bool) : ExtractOutcome
  | ran (created : Bool) (size : Nat) : ExtractOutcome
deriving DecidableEq

/-- Observable trace of one call to
`transcribe_with_ffmpeg_preprocessing`: the returned value (`none`
models the Python `None`), how many times the fallback model was
invoked, and whether the temporary extracted-audio file is still on
disk when the call returns. -/
structure TranscribeTrace where
  result : Option String
  fallbackCalls : Nat
  audioLeft : Bool
deriving DecidableEq

/-- Embedding of `transcribe_with_ffmpeg_preprocessing` (main.py lines
32-103).  `primary` and `fallback` are the oracles for
`model.transcribe` and `base_model.transcribe`: either the list of
segment texts or an error message.  Branches, in source order: outer
exception handler removes the audio file when it exists (lines 98-103);
the existence/size check (line 56) whose else-branch returns without
removing the file (lines 95-97); primary success (lines 60-69); shape
incompatibility triggers one fallback call (lines 73-90); any other
primary error returns None (lines 91-94). -/
def transcribe_with_ffmpeg_preprocessing (ext : ExtractOutcome)
    (primary : Except String (List String))
    (fallback : Except String (List String)) : TranscribeTrace :=
  match ext with
  | .raised _ => ⟨none, 0, false⟩
  | .ran created size =>
    if created && size != 0 then
      match primary with
      | .ok segs => ⟨some (formatPrimary segs), 0, false⟩
      | .error msg =>
        if shapeIncompat msg then
          match fallback with
          | .ok segs => ⟨some (formatFallback segs), 1, false⟩
          | .error _ => ⟨none, 1, false⟩
        else ⟨none, 0, false⟩
    else ⟨none, 0, created⟩

/-- The one extraction outcome on which the source leaks the temp audio
file: ffmpeg completed, the file was created, but it is empty, so the
else-branch at main.py lines 95-97 returns without `os.remove`. -/
def extractLeakCase : ExtractOutcome → Bool
  | .ran true 0 => true
  | _ => false

/-- Observable trace of one call to `download_video` (main.py lines
105-129): number of attempts made, the exact sequence of backoff sleeps
(in seconds, in order), and whether the loop returned the temp path
(`success = false` means the final `raise` re-threw the error to the
caller). -/
structure DownloadTrace where
  attempts : Nat
  sleeps : List Nat
  success : Bool
deriving DecidableEq

/-- The retry loop of `download_video`: `while retry_count < max_retries`
with `max_retries = 3`; a failed attempt increments `retry_count` and,
when more attempts remain, sleeps `2 ** retry_count` seconds; the last
failure re-raises.  `ok n` tells whether the attempt made at
`retry_count = n` succeeds.  The fuel argument is `3 - retry_count`. -/
def downloadGo (ok : Nat → Bool) : Nat → Nat → List Nat → DownloadTrace
  | 0, retryCount, sleeps => ⟨retryCount, sleeps, false⟩
  | fuel + 1, retryCount, sleeps =>
    if ok retryCount then ⟨retryCount + 1, sleeps, true⟩
    else if retryCount + 1 < 3 then
      downloadGo ok fuel (retryCount + 1) (sleeps ++ [2 ^ (retryCount + 1)])
    else ⟨retryCount + 1, sleeps, false⟩

/-- Embedding of `download_video` (main.py lines 105-129). -/
def download_video (ok : Nat → Bool) : DownloadTrace :=
  downloadGo ok 3 0 []

/-- The local temp path chosen by `download_video`, main.py line 107:
`temp_video = f"temp_{file_name}"`.  Note that it depends on the display
name only, not on the subject. -/
def temp_name (file_name : String) : String :=
  "temp_" ++ file_name

/-- Embedding of the inner worker `transcribe_with_progress` (main.py
lines 141-167).  `fileSize p` is the filesystem oracle (0 models a
missing or empty file, matching the check on line 144); `raw p` is the
value returned by `transcribe_with_ffmpeg_preprocessing` for path `p`.
The Python code returns the pair `(video_path, text-or-None)`; the
test `if text:` on line 155 is Python truthiness, so the empty string
is mapped to `None` exactly like a failed transcription. -/
def transcribe_with_progress (fileSize : String → Nat)
    (raw : String → Option String) (path : String) : String × Option String :=
  if fileSize path == 0 then (path, none)
  else
    match raw path with
    | some t => if t == "" then (path, none) else (path, some t)
    | none => (path, none)

/-- The result-collection loop of `transcribe_multiple_videos` (main.py
lines 170-185): workers are drained as they complete and only pairs
whose text is not `None` are added to the `results` mapping. -/
def poolCollect (fileSize : String → Nat) (raw : String → Option String) :
    List String → List (String × String) → List (String × String)
  | [], results => results
  | path :: rest, results =>
    match (transcribe_with_progress fileSize raw path).2 with
    | some text => poolCollect fileSize raw rest (results ++ [(path, text)])
    | none => poolCollect fileSize raw rest results

/-- Embedding of `transcribe_multiple_videos` (main.py lines 131-185),
up to completion order of the thread pool: the result mapping is the
association list of (path, text) for the paths whose worker returned a
non-None text. -/
def transcribe_multiple_videos (fileSize : String → Nat)
    (raw : String → Option String) (video_paths : List String) :
    List (String × String) :=
  poolCollect fileSize raw video_paths []

/-- The worker-pool size of `transcribe_multiple_videos`, main.py line
136: `min(os.cpu_count() - 1 or 1, 3)`, where `cpus` is the value of
`os.cpu_count()`. -/
def max_workers (cpus : Nat) : Nat :=
  min (if cpus - 1 = 0 then 1 else cpus - 1) 3

/-- Events of the persist stage of one video, in execution order. -/
inductive PersistEvent where
  | wrote : PersistEvent
  | inserted : PersistEvent
deriving DecidableEq

/-- Observable trace of one call to `process_transcribed_video`
(main.py lines 283-300): the ordered list of completed steps, whether
the transcript artifact file was written, and whether the
ProcessedRecord insert reached the store. -/
structure PersistTrace where
  events : List PersistEvent
  written : Bool
  marked : Bool
deriving DecidableEq

/-- Embedding of `process_transcribed_video` (main.py lines 283-300).
The body writes the artifact file first (lines 290-291) and only then
issues `processed_collection.insert_one` (line 296); `writeOk` is the
outcome of the artifact write, `crashAfterWrite` injects a crash or
error between the two steps, `insertOk` is the outcome of the store
insert.  Any failure is caught by the handler on line 299 and the
function returns normally. -/
def process_transcribed_video (writeOk crashAfterWrite insertOk : Bool) :
    PersistTrace :=
  if !writeOk then ⟨[], false, false⟩
  else if crashAfterWrite then ⟨[.wrote], true, false⟩
  else if !insertOk then ⟨[.wrote], true, false⟩
  else ⟨[.wrote, .inserted], true, true⟩

/-- Lookup in an association list, modelling Python dict indexing and
the membership test `info[...] in transcriptions` (main.py lines
257-259). -/
def dictLookup (m : List (String × String)) (key : String) : Option String :=
  match m with
  | [] => none
  | (k, v) :: rest => if key == k then some v else dictLookup rest key

/-- A remote file entry as returned by the Drive listing (main.py lines
194-198): `files(id, name)`. -/
structure VideoFile where
  id : String
  name : String
deriving DecidableEq

/-- Environment (oracles) of one `process_subject` run.  `listing` is
the outcome of the `service.files().list(...)` call; `store` is the
current content of `processed_collection` as (subject, video_name)
records; `attemptOk name n` tells whether download attempt number `n`
(0-based) for the video called `name` succeeds; `fileSize p` is the
on-disk size reported for path `p` after its download finished (0 for
missing or empty); `rawTranscript p` is the value
`transcribe_with_ffmpeg_preprocessing` produces for path `p`;
`poolRaises` injects an unrecoverable error thrown out of the
transcription stage (the ABORTED-from-any-state path of the spec);
the three persist oracles drive `process_transcribed_video` per video
name. -/
structure SubjectEnv where
  subject : String
  listing : Except String (List VideoFile)
  store : List (String × String)
  attemptOk : String → Nat → Bool
  fileSize : String → Nat
  rawTranscript : String → Option String
  poolRaises : Bool
  persistWriteOk : String → Bool
  persistCrash : String → Bool
  persistInsertOk : String → Bool

/-- Membership check against the processed store, modelling
`processed_collection.find_one({subject: ..., video_name: ...})`
returning a document (main.py line 207). -/
def is_done (store : List (String × String)) (subject name : String) : Bool :=
  store.contains (subject, name)

/-- The files returned by the listing, empty when the listing raised. -/
def listedFiles (env : SubjectEnv) : List VideoFile :=
  match env.listing with
  | .ok files => files
  | .error _ => []

/-- The filtering stage of `process_subject` (main.py lines 205-210):
the listed files that have no ProcessedRecord yet. -/
def unprocessed_files (env : SubjectEnv) : List VideoFile :=
  (listedFiles env).filter (fun f => !(is_done env.store env.subject f.name))

/-- Whether the download of `f` both returned a path (the retry loop
succeeded) and left a non-empty file on disk — the condition under
which `process_subject` adds the video to `downloaded_videos`
(main.py lines 224-236). -/
def downloadSucceeded (env : SubjectEnv) (f : VideoFile) : Bool :=
  (download_video (env.attemptOk f.name)).success
    && env.fileSize (temp_name f.name) != 0

/-- The videos present in the `downloaded_videos` dict of
`process_subject` after the download stage. -/
def downloaded_videos (env : SubjectEnv) : List VideoFile :=
  (unprocessed_files env).filter (downloadSucceeded env)

/-- The temp paths of the successfully downloaded videos — the list
passed to `transcribe_multiple_videos` (main.py line 243) and the set
removed by the cleanup loops (lines 249-251 and 275-277). -/
def downloadedPaths (env : SubjectEnv) : List String :=
  (downloaded_videos env).map (fun f => temp_name f.name)

/-- The persist trace of one video inside the subject run. -/
def persistTraceFor (env : SubjectEnv) (f : VideoFile) : PersistTrace :=
  process_transcribed_video (env.persistWriteOk f.name)
    (env.persistCrash f.name) (env.persistInsertOk f.name)

/-- Observable trace of one `process_subject` run: the video names for
which a download task was created; the temp paths created on disk by
those downloads (the `open(temp_video, "wb")` on main.py line 114 runs
on the very first attempt, so every started download creates its temp
file); the paths submitted to the transcription pool; the video names
whose artifact file was written; the video names inserted into the
store; the temp paths still on disk when the run terminates; whether
the run ended in the catch-all handler (main.py lines 280-281, the
ABORTED state); and the store content after the run. -/
structure SubjectTrace where
  downloadsStarted : List String
  tempFilesCreated : List String
  transcriptionCalls : List String
  persisted : List String
  markedDone : List String
  tempFilesLeft : List String
  aborted : Bool
  storeAfter : List (String × String)
deriving DecidableEq

/-- Embedding of `process_subject` (main.py lines 187-281).  Branches,
in source order: a raised listing is caught by the handler on line 280
(no downloads were created, nothing to clean); empty listing returns
(line 200); all videos already processed returns (line 212); download
tasks are created for every pending video (lines 217-220) and each one
opens its temp file; if no download succeeded the function returns
WITHOUT removing the temp files of the failed downloads (line 238); an
unrecoverable error thrown from the transcription stage jumps to the
catch-all handler, which performs NO cleanup; if the transcription
mapping is empty, only the successfully downloaded paths are removed
(lines 246-252), the temp files of failed downloads again stay; in the
full path, each video whose path has a transcript goes through
`process_transcribed_video` (lines 255-272) and the final cleanup loop
removes exactly the successfully downloaded paths (lines 275-277). -/
def process_subject (env : SubjectEnv) : SubjectTrace :=
  match env.listing with
  | .error _ => ⟨[], [], [], [], [], [], true, env.store⟩
  | .ok files =>
    if files.isEmpty then ⟨[], [], [], [], [], [], false, env.store⟩
    else
      let pending := files.filter (fun f => !(is_done env.store env.subject f.name))
      if pending.isEmpty then ⟨[], [], [], [], [], [], false, env.store⟩
      else
        let started := pending.map (fun f => f.name)
        let created := pending.map (fun f => temp_name f.name)
        let downloaded := pending.filter (downloadSucceeded env)
        if downloaded.isEmpty then
          ⟨started, created, [], [], [], created, false, env.store⟩
        else if env.poolRaises then
          ⟨started, created, [], [], [], created, true, env.store⟩
        else
          let paths := downloaded.map (fun f => temp_name f.name)
          let transcriptions :=
            transcribe_multiple_videos env.fileSize env.rawTranscript paths
          if transcriptions.isEmpty then
            ⟨started, created, paths, [], [],
              created.filter (fun p => !(paths.contains p)), false, env.store⟩
          else
            let toPersist := downloaded.filter
              (fun f => (dictLookup transcriptions (temp_name f.name)).isSome)
            let persisted :=
              (toPersist.filter (fun f => (persistTraceFor env f).written)).map
                (fun f => f.name)
            let marked :=
              (toPersist.filter (fun f => (persistTraceFor env f).marked)).map
                (fun f => f.name)
            ⟨started, created, paths, persisted, marked,
              created.filter (fun p => !(paths.contains p)), false,
              env.store ++ marked.map (fun n => (env.subject, n))⟩

/-- Embedding of `main` (main.py lines 302-306): one `process_subject`
task per configured subject, gathered; each subject run owns its trace
and no state flows between them. -/
def main (envs : List SubjectEnv) : List SubjectTrace :=
  envs.map process_subject

/-- Whether every listed video of the environment already has a
ProcessedRecord in the store. -/
def allDone (env : SubjectEnv) : Bool :=
  (listedFiles env).all (fun f => is_done env.store env.subject f.name)

/-- Concrete environment: one listed video that already has a
ProcessedRecord in the store. -/
def envAllDone : SubjectEnv where
  subject := "S"
  listing := .ok [⟨"id1", "v1.mp4"⟩]
  store := [("S", "v1.mp4")]
  attemptOk := fun _ _ => true
  fileSize := fun _ => 10
  rawTranscript := fun _ => some "text"
  poolRaises := false
  persistWriteOk := fun _ => true
  persistCrash := fun _ => false
  persistInsertOk := fun _ => true

/-- Concrete environment: one listed video not yet in the store, with a
crash injected between the artifact write and the store insert. -/
def envRetry : SubjectEnv where
  subject := "S"
  listing := .ok [⟨"idv", "v.mp4"⟩]
  store := []
  attemptOk := fun _ _ => true
  fileSize := fun _ => 10
  rawTranscript := fun _ => some "text"
  poolRaises := false
  persistWriteOk := fun _ => true
  persistCrash := fun _ => true
  persistInsertOk := fun _ => true

/-- Concrete environment: one pending video whose download fails on all
three attempts, leaving a partial temp file on disk. -/
def envDownloadFails : SubjectEnv where
  subject := "S"
  listing := .ok [⟨"id1", "lec.mp4"⟩]
  store := []
  attemptOk := fun _ _ => false
  fileSize := fun _ => 0
  rawTranscript := fun _ => none
  poolRaises := false
  persistWriteOk := fun _ => true
  persistCrash := fun _ => false
  persistInsertOk := fun _ => true

/-- Concrete environment: one pending video downloaded successfully,
then an unrecoverable error thrown out of the transcription stage. -/
def envPoolCrash : SubjectEnv where
  subject := "S"
  listing := .ok [⟨"id1", "lec.mp4"⟩]
  store := []
  attemptOk := fun _ _ => true
  fileSize := fun _ => 7
  rawTranscript := fun _ => some "text"
  poolRaises := true
  persistWriteOk := fun _ => true
  persistCrash := fun _ => false
  persistInsertOk := fun _ => true

/-- Concrete environment: subject A listing a video called lec.mp4. -/
def envSubjectA : SubjectEnv where
  subject := "A"
  listing := .ok [⟨"idA", "lec.mp4"⟩]
  store := []
  attemptOk := fun _ _ => true
  fileSize := fun _ => 9
  rawTranscript := fun _ => some "text"
  poolRaises := false
  persistWriteOk := fun _ => true
  persistCrash := fun _ => false
  persistInsertOk := fun _ => true

/-- Concrete environment: a different subject B listing a video with
the same display name lec.mp4. -/
def envSubjectB : SubjectEnv where
  subject := "B"
  listing := .ok [⟨"idB", "lec.mp4"⟩]
  store := []
  attemptOk := fun _ _ => true
  fileSize := fun _ => 9
  rawTranscript := fun _ => some "text"
  poolRaises := false
  persistWriteOk := fun _ => true
  persistCrash := fun _ => false
  persistInsertOk := fun _ => true

/-- Concrete environment: a healthy subject used in the isolation
witness. -/
def envIsoA : SubjectEnv where
  subject := "IsoA"
  listing := .ok [⟨"ida", "a.mp4"⟩]
  store := []
  attemptOk := fun _ _ => true
  fileSize := fun _ => 6
  rawTranscript := fun _ => some "text"
  poolRaises := false
  persistWriteOk := fun _ => true
  persistCrash := fun _ => false
  persistInsertOk := fun _ => true

/-- Concrete environment: a subject whose listing call raises. -/
def envIsoErr : SubjectEnv where
  subject := "IsoB"
  listing := .error "list failed"
  store := []
  attemptOk := fun _ _ => true
  fileSize := fun _ => 6
  rawTranscript := fun _ => some "text"
  poolRaises := false
  persistWriteOk := fun _ => true
  persistCrash := fun _ => false
  persistInsertOk := fun _ => true

/-- Concrete environment: one video that downloads fine but whose
transcription returns the empty string. -/
def envEmptyTranscript : SubjectEnv where
  subject := "S"
  listing := .ok [⟨"idv", "v.mp4"⟩]
  store := []
  attemptOk := fun _ _ => true
  fileSize := fun _ => 5
  rawTranscript := fun _ => some ""
  poolRaises := false
  persistWriteOk := fun _ => true
  persistCrash := fun _ => false
  persistInsertOk := fun _ => true

/-- Helper: a subject whose listed videos are all marked done in the
store creates no download task, no transcription call and no temp
file. -/
theorem process_subject_all_done (env : SubjectEnv) (h : allDone env = true) :
    (process_subject env).downloadsStarted = [] ∧
    (process_subject env).transcriptionCalls = [] ∧
    (process_subject env).tempFilesCreated = [] := by
  unfold allDone at h
  unfold process_subject
  cases hls : env.listing with
  | error e => simp
  | ok files =>
    simp only [listedFiles, hls] at h
    have hfilter :
        files.filter (fun f => !(is_done env.store env.subject f.name)) = [] := by
      apply List.filter_eq_nil_iff.mpr
      intro a ha
      have := List.all_eq_true.mp h a ha
      simp [this]
    by_cases hfe : files.isEmpty <;> simp [hfe, hfilter]

/-- C1: idempotence of the coordinator.  For every list of subject
environments in which every listed video already has a ProcessedRecord
(second run over an unchanged remote file set and a populated store),
every subject trace produced by the coordinator performs zero
downloads, zero transcriptions and creates no temp file: each video is
skipped by the membership check during filtering and the subject
returns before any download task is created. -/
theorem coordinator_idempotent (envs : List SubjectEnv)
    (h : envs.all allDone = true) :
    (main envs).all (fun t =>
      t.downloadsStarted.isEmpty && t.transcriptionCalls.isEmpty &&
      t.tempFilesCreated.isEmpty) = true := by
  apply List.all_eq_true.mpr
  intro t ht
  simp only [main, List.mem_map] at ht
  obtain ⟨env, henv, rfl⟩ := ht
  have hd := process_subject_all_done env (List.all_eq_true.mp h env henv)
  simp [hd.1, hd.2.1, hd.2.2]

/-- Witness for the idempotence theorem at a concrete environment. -/
theorem coordinator_idempotent_witness :
    [envAllDone].all allDone = true ∧
    (main [envAllDone]).all (fun t =>
      t.downloadsStarted.isEmpty && t.transcriptionCalls.isEmpty &&
      t.tempFilesCreated.isEmpty) = true :=
  ⟨by decide, coordinator_idempotent [envAllDone] (by decide)⟩

/-- C2: write-before-mark.  In `process_transcribed_video` the store is
marked only after the artifact write completed, and in that case the
event order is exactly write-then-insert; a crash or error injected
between the two steps leaves the store NOT marked; and a video whose
key is absent from the store is selected again by the filtering stage
of the next run, hence re-processed. -/
theorem write_before_mark (writeOk crashAfterWrite insertOk : Bool)
    (env : SubjectEnv) (f : VideoFile)
    (hnew : is_done env.store env.subject f.name = false)
    (hlisted : f ∈ listedFiles env) :
    ((process_transcribed_video writeOk crashAfterWrite insertOk).marked = true →
      (process_transcribed_video writeOk crashAfterWrite insertOk).events =
        [PersistEvent.wrote, PersistEvent.inserted]) ∧
    (crashAfterWrite = true →
      (process_transcribed_video writeOk crashAfterWrite insertOk).written = writeOk ∧
      (process_transcribed_video writeOk crashAfterWrite insertOk).marked = false) ∧
    f ∈ unprocessed_files env := by
  refine ⟨?_, ?_, ?_⟩
  · cases writeOk <;> cases crashAfterWrite <;> cases insertOk <;>
      simp [process_transcribed_video]
  · cases writeOk <;> cases crashAfterWrite <;> cases insertOk <;>
      simp [process_transcribed_video]
  · exact List.mem_filter.mpr ⟨hlisted, by simp [hnew]⟩

/-- Witness for the write-before-mark theorem at a concrete input with
a crash injected between write and insert. -/
theorem write_before_mark_witness :
    is_done envRetry.store envRetry.subject "v.mp4" = false ∧
    (⟨"idv", "v.mp4"⟩ : VideoFile) ∈ listedFiles envRetry ∧
    (process_transcribed_video true true true).marked = false ∧
    (⟨"idv", "v.mp4"⟩ : VideoFile) ∈ unprocessed_files envRetry := by
  have h := write_before_mark true true true envRetry ⟨"idv", "v.mp4"⟩
    (by decide) (by decide)
  exact ⟨by decide, by decide, (h.2.1 rfl).2, h.2.2⟩

/-- C3: the cleanup guarantee is violated by the source.  Left
environment: the single pending video fails all three download
attempts, the run terminates on the early-return path, and the temp
file created by `open(temp_video, "wb")` is still on disk.  Right
environment: the video downloads fine and an unrecoverable error
thrown out of the transcription stage reaches the catch-all handler,
which removes nothing, so the run is ABORTED with the temp file still
on disk. -/
theorem cleanup_guarantee_violation :
    process_subject envDownloadFails =
      ⟨["lec.mp4"], ["temp_lec.mp4"], [], [], [], ["temp_lec.mp4"], false, []⟩ ∧
    process_subject envPoolCrash =
      ⟨["lec.mp4"], ["temp_lec.mp4"], [], [], [], ["temp_lec.mp4"], true, []⟩ :=
  ⟨by decide, by decide⟩

/-- C4 counterexample: with a shape-incompatibility primary error and a
fallback producing the single segment "hello", the source returns
"hello\n\n" — each segment is followed by a blank line — which is not
the segment texts joined with a blank-line separator ("hello"). -/
theorem fallback_join_counterexample :
    transcribe_with_ffmpeg_preprocessing (.ran true 5)
        (.error "cannot reshape tensor of 0 elements") (.ok ["hello"]) =
      ⟨some "hello\n\n", 1, false⟩ ∧
    specBlankLineJoin ["hello"] = "hello" ∧
    ("hello\n\n" : String) ≠ "hello" :=
  ⟨by decide, by decide, by decide⟩

/-- C4 amended: if the primary model raises an error whose message
contains a shape-incompatibility marker, the fallback model is invoked
exactly once and, when it succeeds, the result is the stripped segment
texts each followed by a blank line (`formatFallback`); a fallback
failure returns None; for a primary error of any other kind no fallback
call occurs and the result is None. -/
theorem fallback_trigger (size : Nat) (msg : String) (segs : List String)
    (fbErr : String) (hsize : size ≠ 0) :
    (shapeIncompat msg = true →
      transcribe_with_ffmpeg_preprocessing (.ran true size) (.error msg) (.ok segs) =
        ⟨some (formatFallback segs), 1, false⟩ ∧
      transcribe_with_ffmpeg_preprocessing (.ran true size) (.error msg)
          (.error fbErr) =
        ⟨none, 1, false⟩) ∧
    (shapeIncompat msg = false →
      ∀ fb, transcribe_with_ffmpeg_preprocessing (.ran true size) (.error msg) fb =
        ⟨none, 0, false⟩) := by
  have hcond : (true && size != 0) = true := by simp [hsize]
  constructor
  · intro hs
    constructor <;> simp [transcribe_with_ffmpeg_preprocessing, hcond, hs]
  · intro hs fb
    simp [transcribe_with_ffmpeg_preprocessing, hcond, hs]

/-- Witness for the fallback-trigger theorem at a concrete input. -/
theorem fallback_trigger_witness :
    (5 : Nat) ≠ 0 ∧ shapeIncompat "reshape tensor mismatch" = true ∧
    transcribe_with_ffmpeg_preprocessing (.ran true 5)
        (.error "reshape tensor mismatch") (.ok ["a"]) =
      ⟨some (formatFallback ["a"]), 1, false⟩ :=
  ⟨by decide, by decide,
    ((fallback_trigger 5 "reshape tensor mismatch" ["a"] "boom" (by decide)).1
      (by decide)).1⟩

/-- C5: the download retry contract.  For every oracle of per-attempt
outcomes, `download_video` makes at most 3 attempts; the sleeps are
exactly 2^(k+1) seconds after the k-th failure among the non-final
failed attempts, hence always a prefix of the backoff schedule
2s, 4s, 8s; and when no attempt succeeded the error is re-raised after
the third attempt. -/
theorem download_retry_contract (ok : Nat → Bool) :
    (download_video ok).attempts ≤ 3 ∧
    (download_video ok).sleeps =
      (List.range ((download_video ok).attempts - 1)).map (fun k => 2 ^ (k + 1)) ∧
    (download_video ok).sleeps <+: [2, 4, 8] ∧
    ((download_video ok).success = false → (download_video ok).attempts = 3) := by
  cases h0 : ok 0 <;> cases h1 : ok 1 <;> cases h2 : ok 2 <;>
    simp [download_video, downloadGo, h0, h1, h2] <;> decide

/-- Witness for the download retry contract with every attempt
failing: three attempts, sleeps 2s then 4s, error re-raised. -/
theorem download_retry_contract_witness :
    (download_video (fun _ => false)).success = false ∧
    (download_video (fun _ => false)).sleeps = [2, 4] ∧
    (download_video (fun _ => false)).attempts = 3 :=
  ⟨by decide, by decide,
    (download_retry_contract (fun _ => false)).2.2.2 (by decide)⟩

/-- C6: temp-path collision across subjects.  Two subjects named A and
B, each listing a video with the same display name lec.mp4, both create
the same local temp path temp_lec.mp4, because `download_video` derives
the name from the display name only (main.py line 107). -/
theorem temp_name_collision :
    envSubjectA.subject = "A" ∧ envSubjectB.subject = "B" ∧
    (process_subject envSubjectA).tempFilesCreated = ["temp_lec.mp4"] ∧
    (process_subject envSubjectB).tempFilesCreated = ["temp_lec.mp4"] ∧
    temp_name "lec.mp4" = "temp_lec.mp4" :=
  ⟨rfl, rfl, by decide, by decide, rfl⟩

/-- C7: the temp-audio cleanup is violated in exactly one case.  For
every extraction, primary and fallback outcome, the extracted audio
file is left on disk exactly when ffmpeg completed but the created
file is empty (the else-branch at main.py lines 95-97 returns without
removing it); in particular at that concrete input the call returns
None with the file still on disk.  Every other exit path removes the
file. -/
theorem temp_audio_leak :
    (∀ (ext : ExtractOutcome) (primary fallback : Except String (List String)),
      (transcribe_with_ffmpeg_preprocessing ext primary fallback).audioLeft =
        extractLeakCase ext) ∧
    transcribe_with_ffmpeg_preprocessing (.ran true 0) (.ok ["x"]) (.ok ["y"]) =
      ⟨none, 0, true⟩ := by
  constructor
  · intro ext primary fallback
    cases ext with
    | raised b => rfl
    | ran created size =>
      cases created <;> cases size <;>
        simp [transcribe_with_ffmpeg_preprocessing, extractLeakCase] <;>
        cases primary <;> simp <;> split <;>
        first | rfl | (cases fallback <;> rfl)
  · rfl

/-- C8: subject isolation.  The coordinator produces one trace per
subject; the trace at every position is that of running the subject
pipeline on that environment alone, so one subject raising during
listing cannot affect any other subject; and a subject whose listing
raises terminates in the ABORTED state (the error is absorbed by the
catch-all handler, never propagated to the coordinator). -/
theorem subject_isolation (envs : List SubjectEnv) (i : Fin envs.length) :
    (main envs).length = envs.length ∧
    (main envs).get (i.cast (by simp [main])) = process_subject (envs.get i) ∧
    (∀ e, (envs.get i).listing = Except.error e →
      (process_subject (envs.get i)).aborted = true ∧
      (process_subject (envs.get i)).downloadsStarted = []) := by
  refine ⟨by simp [main], by simp [main], ?_⟩
  intro e he
  simp only [List.get_eq_getElem] at he
  constructor <;> simp [process_subject, he]

/-- Witness for the isolation theorem: two subjects, the second with a
raising listing; the coordinator still yields both traces and the
failing subject ends ABORTED while the healthy one does not. -/
theorem subject_isolation_witness :
    (main [envIsoA, envIsoErr]).length = 2 ∧
    (process_subject envIsoErr).aborted = true ∧
    (process_subject envIsoA).aborted = false := by
  have h := subject_isolation [envIsoA, envIsoErr] ⟨1, by decide⟩
  exact ⟨h.1, (h.2.2 "list failed" rfl).1, by decide⟩

/-- C9 counterexample: a successful fallback transcription of segments
a and b yields "a\n\nb\n\n", which is not the blank-line-SEPARATED
join "a\n\nb": the source leaves a trailing blank line after the last
segment. -/
theorem transcript_format_counterexample :
    transcribe_with_ffmpeg_preprocessing (.ran true 3)
        (.error "Linear layer size mismatch") (.ok ["a", "b"]) =
      ⟨some "a\n\nb\n\n", 1, false⟩ ∧
    specBlankLineJoin ["a", "b"] = "a\n\nb" ∧
    ("a\n\nb\n\n" : String) ≠ "a\n\nb" :=
  ⟨by decide, by decide, by decide⟩

/-- C9 amended: a successful primary transcription returns the
concatenation of the stripped segment texts each followed by exactly
one line break, and a successful fallback transcription returns the
stripped segment texts each followed by a blank line (two line
breaks). -/
theorem transcript_format (size : Nat) (hsize : size ≠ 0)
    (segs fbsegs : List String) (fb : Except String (List String))
    (msg : String) (hshape : shapeIncompat msg = true) :
    transcribe_with_ffmpeg_preprocessing (.ran true size) (.ok segs) fb =
      ⟨some (formatPrimary segs), 0, false⟩ ∧
    formatPrimary segs = String.join (segs.map (fun s => pyStrip s ++ "\n")) ∧
    transcribe_with_ffmpeg_preprocessing (.ran true size) (.error msg) (.ok fbsegs) =
      ⟨some (formatFallback fbsegs), 1, false⟩ ∧
    formatFallback fbsegs =
      String.join (fbsegs.map (fun s => pyStrip s ++ "\n\n")) := by
  have hcond : (true && size != 0) = true := by simp [hsize]
  refine ⟨?_, ?_, ?_, ?_⟩
  · simp [transcribe_with_ffmpeg_preprocessing, hcond]
  · simp [formatPrimary, String.join, List.foldl_map]
  · simp [transcribe_with_ffmpeg_preprocessing, hcond, hshape]
  · simp [formatFallback, String.join, List.foldl_map]

/-- Witness for the transcript-format theorem at a concrete input. -/
theorem transcript_format_witness :
    (3 : Nat) ≠ 0 ∧ shapeIncompat "Linear" = true ∧
    transcribe_with_ffmpeg_preprocessing (.ran true 3) (.ok ["a"]) (.ok []) =
      ⟨some (formatPrimary ["a"]), 0, false⟩ :=
  ⟨by decide, by decide,
    (transcript_format 3 (by decide) ["a"] ["b"] (.ok []) "Linear" (by decide)).1⟩

/-- Helper: the inner worker maps a path whose raw transcription is the
empty string to None, because the truthiness test `if text:` on main.py
line 155 rejects the empty string. -/
theorem progress_empty (fileSize : String → Nat) (raw : String → Option String)
    (p : String) (hraw : raw p = some "") :
    (transcribe_with_progress fileSize raw p).2 = none := by
  unfold transcribe_with_progress
  cases hfs : (fileSize p == 0) <;> simp [hfs, hraw]

/-- Helper: appending a pair with a different key preserves an absent
lookup. -/
theorem dictLookup_append_single (p q t : String) (acc : List (String × String))
    (hacc : dictLookup acc p = none) (hpq : (p == q) = false) :
    dictLookup (acc ++ [(q, t)]) p = none := by
  induction acc with
  | nil => simp [dictLookup, hpq]
  | cons hd tl ih =>
    obtain ⟨k, v⟩ := hd
    cases hk : (p == k) <;> simp [dictLookup, hk] at hacc ⊢
    exact ih hacc

/-- Helper: the pool collection loop never adds an entry for a path
whose raw transcription is the empty string. -/
theorem poolCollect_lookup_none (fileSize : String → Nat)
    (raw : String → Option String) (p : String) (hraw : raw p = some "") :
    ∀ (paths : List String) (acc : List (String × String)),
      dictLookup acc p = none →
      dictLookup (poolCollect fileSize raw paths acc) p = none := by
  intro paths
  induction paths with
  | nil => intro acc hacc; simpa [poolCollect] using hacc
  | cons q rest ih =>
    intro acc hacc
    cases hq : (transcribe_with_progress fileSize raw q).2 with
    | none => simpa [poolCollect, hq] using ih acc hacc
    | some text =>
      have hneq : (p == q) = false := by
        cases hpq : (p == q) with
        | false => rfl
        | true =>
          have hqp : p = q := beq_iff_eq.mp hpq
          rw [← hqp, progress_empty fileSize raw p hraw] at hq
          simp at hq
      simp only [poolCollect, hq]
      exact ih _ (dictLookup_append_single p q text acc hacc hneq)

/-- C10 amended: a video whose transcription returns the empty string
is treated as a FAILURE by the pipeline: the worker maps it to None,
so the path is absent from the transcription result mapping and the
video is neither persisted nor marked done. -/
theorem empty_transcript_policy (fileSize : String → Nat)
    (raw : String → Option String) (paths : List String) (p : String)
    (hraw : raw p = some "") :
    (transcribe_with_progress fileSize raw p).2 = none ∧
    dictLookup (transcribe_multiple_videos fileSize raw paths) p = none :=
  ⟨progress_empty fileSize raw p hraw,
    poolCollect_lookup_none fileSize raw p hraw paths [] rfl⟩

/-- Witness for the empty-transcript theorem at a concrete input. -/
theorem empty_transcript_policy_witness :
    ((fun _ : String => (some "" : Option String)) "temp_v.mp4" = some "") ∧
    dictLookup (transcribe_multiple_videos (fun _ => 5) (fun _ => some "")
      ["temp_v.mp4"]) "temp_v.mp4" = none :=
  ⟨rfl, (empty_transcript_policy (fun _ => 5) (fun _ => some "") ["temp_v.mp4"]
    "temp_v.mp4" rfl).2⟩

/-- C10 counterexample: with a transcription returning the empty string
for the only video, the result mapping is empty — the path does NOT
appear in it — and the subject run persists and marks nothing. -/
theorem empty_transcript_counterexample :
    transcribe_multiple_videos (fun _ => 5) (fun _ => some "") ["temp_v.mp4"] =
      [] ∧
    process_subject envEmptyTranscript =
      ⟨["v.mp4"], ["temp_v.mp4"], ["temp_v.mp4"], [], [], [], false, []⟩ :=
  ⟨by decide, by decide⟩

end LectureTranscriber
